import Mathlib

/-!
# Verification of the FCAT data-tracker ingestion/normalization layer

Shallow embedding of the data-shaping core of the repository:

* `normalize_wide_data` (src/core/ui.py): wide-to-long melt with date-column
  detection, `value`-name collision handling, date canonicalization, numeric
  coercion and null-value row dropping;
* `render_completeness` (src/core/ui.py): the four-dimension completeness
  scorecard over column names;
* `get_bls_data` (src/sources/bls.py): the BLS payload parsing pipeline
  (period filter, date construction, numeric coercion, sort);
* `get_imf_data` (src/sources/imf.py): the SDMX-CompactData and DataMapper
  extraction pipelines.

Tables are modelled as a column-name list plus rows of cells; a cell is a
string, a rational number (standing for a Python float), a calendar date
(standing for a pandas Timestamp) or null (NaN/NaT).  Fallible code paths
(a Python exception escaping to an adapter's `except` handler) are modelled
with `Option`, `none` standing for "the adapter returned an error result".
`pd.to_datetime` is modelled per element on the ISO-like shapes `YYYY`,
`YYYY-MM`, `YYYY-MM-DD` that the embedded pipelines produce; every other
string is unparseable (null under `errors='coerce'`, error propagation
under the default `errors='raise'`).
-/

namespace FCAT

/-- A calendar date (year, month, day). -/
structure Date where
  year : Nat
  month : Nat
  day : Nat
  deriving DecidableEq

/-- Gregorian leap-year test. -/
def isLeapYear (y : Nat) : Bool :=
  (y % 4 == 0 && y % 100 != 0) || y % 400 == 0

/-- Number of days in month `m` of year `y`. -/
def daysInMonth (y m : Nat) : Nat :=
  if m = 2 then (if isLeapYear y then 29 else 28)
  else if m = 4 ∨ m = 6 ∨ m = 9 ∨ m = 11 then 30
  else 31

/-- Is `(y, m, d)` a valid calendar date? -/
def validDate (y m d : Nat) : Bool :=
  decide (1 ≤ m) && decide (m ≤ 12) && decide (1 ≤ d) && decide (d ≤ daysInMonth y m)

/-- Numeric key for date ordering (`y*10000 + m*100 + d`). -/
def dateKey (d : Date) : Nat := d.year * 10000 + d.month * 100 + d.day

/-- Decimal value of a digit list, `none` if any character is not a digit
or the list is empty. -/
def digitsToNat? (l : List Char) : Option Nat :=
  if l.all Char.isDigit ∧ l ≠ [] then
    some (l.foldl (fun acc c => acc * 10 + (c.toNat - 48)) 0)
  else none

/-- Model of per-element `pd.to_datetime` on the string shapes produced by the
embedded pipelines: `YYYY` (year, January 1st), `YYYY-MM` (month start) and
`YYYY-MM-DD`; anything else fails.  Month/day bounds are checked, including
leap years. -/
def parseDate (s : String) : Option Date :=
  match s.toList with
  | [y1, y2, y3, y4] =>
    (digitsToNat? [y1, y2, y3, y4]).map (fun y => ⟨y, 1, 1⟩)
  | [y1, y2, y3, y4, '-', m1, m2] =>
    match digitsToNat? [y1, y2, y3, y4], digitsToNat? [m1, m2] with
    | some y, some m => if 1 ≤ m ∧ m ≤ 12 then some ⟨y, m, 1⟩ else none
    | _, _ => none
  | [y1, y2, y3, y4, '-', m1, m2, '-', d1, d2] =>
    match digitsToNat? [y1, y2, y3, y4], digitsToNat? [m1, m2], digitsToNat? [d1, d2] with
    | some y, some m, some d => if validDate y m d then some ⟨y, m, d⟩ else none
    | _, _, _ => none
  | _ => none

/-- Model of Python `float(s)` / `pd.to_numeric` on a plain decimal string:
optional sign, integer digits, optional fractional digits.  `none` means the
string is not numeric. -/
def parseRat (s : String) : Option ℚ :=
  let signed : ℚ × List Char :=
    match s.toList with
    | '-' :: rest => (-1, rest)
    | '+' :: rest => (1, rest)
    | l => (1, l)
  match signed.2.span (fun c => c != '.') with
  | (ip, []) => (digitsToNat? ip).map (fun n => signed.1 * n)
  | (ip, _ :: fp) =>
    match digitsToNat? ip, digitsToNat? fp with
    | some n, some f =>
      some (signed.1 * ((n : ℚ) + (f : ℚ) / (10 : ℚ) ^ fp.length))
    | _, _ => none

/-- Model of Python `float(s)` including the `"nan"` literal: `none` means
`float` raises; `some none` means the result is NaN; `some (some q)` a finite
value. -/
def parseFloatPy (s : String) : Option (Option ℚ) :=
  if s = "nan" ∨ s = "NaN" ∨ s = "NAN" then some none
  else (parseRat s).map some

/-- `pd.to_numeric(·, errors='coerce')` on a string cell: unparseable strings
and NaN both coerce to null. -/
def toNumericStr (s : String) : Option ℚ :=
  (parseFloatPy s).bind id

/-- Python `str.replace` (left-to-right, non-overlapping), on character lists,
with an explicit structural fuel (the fuel is always instantiated with the
length of the subject list, which suffices for a non-empty pattern). -/
def replaceFuel (pat rep : List Char) : Nat → List Char → List Char
  | _, [] => []
  | 0, l => l
  | fuel + 1, c :: rest =>
    if pat.isPrefixOf (c :: rest) then
      rep ++ replaceFuel pat rep fuel ((c :: rest).drop pat.length)
    else c :: replaceFuel pat rep fuel rest

/-- Python `s.replace(pat, rep)` for a non-empty pattern. -/
def strReplace (s pat rep : String) : String :=
  ⟨replaceFuel pat.toList rep.toList s.toList.length s.toList⟩

/-- Lower-casing of a string, character by character (`str.lower`). -/
def lowerStr (s : String) : String :=
  ⟨s.toList.map Char.toLower⟩

/-! ## Table model and the normalizer (src/core/ui.py, `normalize_wide_data`) -/

/-- One table cell: a string, a number (Python float, modelled as `ℚ`), a
parsed date (pandas Timestamp) or null (NaN/NaT/None). -/
inductive Cell where
  | str (s : String)
  | num (q : ℚ)
  | date (d : Date)
  | null
  deriving DecidableEq

/-- A dataframe: ordered column names and rows of cells (row cells are
positionally aligned with the column list). -/
structure DF where
  cols : List String
  rows : List (List Cell)
  deriving DecidableEq

/-- `re.match(r'^\d{4}(?:-[QM]\d{2})?$', c)` from `normalize_wide_data`:
exactly four digits, optionally followed by `-` then `Q` or `M` then exactly
two digits. -/
def matchesDateToken (s : String) : Bool :=
  match s.toList with
  | [a, b, c, d] => [a, b, c, d].all Char.isDigit
  | [a, b, c, d, '-', q, e, f] =>
    [a, b, c, d].all Char.isDigit && (q == 'Q' || q == 'M') && e.isDigit && f.isDigit
  | _ => false

/-- The date-like columns of a table (`date_cols` in the source). -/
def dateColsOf (df : DF) : List String := df.cols.filter matchesDateToken

/-- The identifier columns (`id_cols`): everything not matching the date
pattern. -/
def idColsOf (df : DF) : List String := df.cols.filter (fun c => !matchesDateToken c)

/-- `row[c]`: the cell of `row` under column name `c` (first occurrence);
null if the column is absent. -/
def lookupCell (cols : List String) (row : List Cell) (c : String) : Cell :=
  match (cols.zip row).find? (fun p => p.1 == c) with
  | some p => p.2
  | none => Cell.null

/-- The date-canonicalization chain applied to the melted `date` column:
`-Q1`, `-Q2`, `-Q3`, `-Q4` are replaced by the quarter's month start,
`-M` by `-`,
and a bare four-character year gets `-01-01` appended. -/
def cleanDate (x : String) : String :=
  let x1 := strReplace (strReplace (strReplace (strReplace (strReplace x
    "-Q1" "-01-01") "-Q2" "-04-01") "-Q3" "-07-01") "-Q4" "-10-01") "-M" "-"
  if x1.length = 4 then x1 ++ "-01-01" else x1

/-- `astype(str)` on a cell of the melted `date` column (always a string in
the pipeline; the other arms are unreachable there). -/
def cellText (c : Cell) : String :=
  match c with
  | .str s => s
  | .num _ => ""
  | .date _ => ""
  | .null => "nan"

/-- `pd.to_numeric(·, errors='coerce')` on a cell. -/
def toNumeric (c : Cell) : Option ℚ :=
  match c with
  | .str s => toNumericStr s
  | .num q => some q
  | .date _ => none
  | .null => none

/-- `pd.to_datetime(·, errors='coerce')` on a date string: a date cell on
success, null (NaT) otherwise. -/
def dateCellOf (s : String) : Cell :=
  match parseDate s with
  | some d => Cell.date d
  | none => Cell.null

/-- Numeric coercion as a cell-to-cell map (null on failure). -/
def numCellOf (c : Cell) : Cell :=
  match toNumeric c with
  | some q => Cell.num q
  | none => Cell.null

/-- The identifier cells of one source row (the `id_vars` part of a melted
row). -/
def meltIdCells (df : DF) (src : List Cell) : List Cell :=
  (idColsOf df).map (fun c => lookupCell df.cols src c)

/-- One melted row before post-processing: identifier cells, the date-column
name (the `var_name='date'` column) and that column's cell (the melted value
column). -/
def buildRow (df : DF) (d : String) (src : List Cell) : List Cell :=
  meltIdCells df src ++ [Cell.str d, lookupCell df.cols src d]

/-- `df.melt(id_vars=id_cols, value_vars=date_cols, var_name='date',
value_name=target)`: for each date column (in order) and each source row
(in order), one melted row. -/
def meltRows (df : DF) : List (List Cell) :=
  (dateColsOf df).flatMap (fun d => df.rows.map (buildRow df d))

/-- `value_name` passed to `melt`: `'melted_numeric_value'` when an
identifier column is already named `value`, else `'value'`. -/
def meltTarget (df : DF) : String :=
  if (idColsOf df).contains "value" then "melted_numeric_value" else "value"

/-- Columns of the melted frame before the post-melt rename. -/
def meltCols1 (df : DF) : List String := idColsOf df ++ ["date", meltTarget df]

/-- Columns after the post-melt swap rename
(`rename(columns={'value': 'value_desc', 'melted_numeric_value': 'value'})`,
applied only when the collision fix was needed). -/
def meltCols2 (df : DF) : List String :=
  if (idColsOf df).contains "value" then
    (meltCols1 df).map (fun c =>
      if c == "value" then "value_desc"
      else if c == "melted_numeric_value" then "value" else c)
  else meltCols1 df

/-- The per-row effect of the column assignments on the melted frame:
position `n` (the `date` column) gets the cleaned, parsed date; position
`n + 1` (the value column) gets the numeric coercion of its cell. -/
def procRow (n : Nat) (r : List Cell) : List Cell :=
  (r.set n (dateCellOf (cleanDate (cellText (r.getD n Cell.null))))).set (n + 1)
    (numCellOf (r.getD (n + 1) Cell.null))

/-- `normalize_wide_data` (src/core/ui.py lines 8-55): if more than 3 column
names match the date-token pattern, melt to long format (renaming a
pre-existing `value` identifier column to `value_desc` and giving the melted
numeric column the name `value`), canonicalize the `date` strings, coerce
`date`/`value`, and drop rows whose coerced `value` is null
(`dropna(subset=['value'])`); otherwise return the table unchanged. -/
def normalize_wide_data (df : DF) : DF :=
  if 3 < (dateColsOf df).length then
    ⟨meltCols2 df,
     ((meltRows df).map (procRow (idColsOf df).length)).filter
       (fun r => r.getD ((idColsOf df).length + 1) Cell.null != Cell.null)⟩
  else df

/-- The fate of one (date-column, source-row) pair under the melt branch:
dropped (`none`) when its value cell coerces to null, otherwise the fully
processed output row. -/
def meltOutRow (df : DF) (d : String) (src : List Cell) : Option (List Cell) :=
  match toNumeric (lookupCell df.cols src d) with
  | none => none
  | some q => some (meltIdCells df src ++ [dateCellOf (cleanDate d), Cell.num q])

/-- Number of melted rows whose `value` cell coerces to null (the rows that
`dropna(subset=['value'])` removes). -/
def droppedNullValueCount (df : DF) : Nat :=
  (meltRows df).countP
    (fun r => (toNumeric (r.getD ((idColsOf df).length + 1) Cell.null)).isNone)

/-- The date-token pattern exactly as the specification words it:
`YYYY`, `YYYY-Qn` (single-digit quarter) or `YYYY-Mnn`. -/
def specDateToken (s : String) : Bool :=
  match s.toList with
  | [a, b, c, d] => [a, b, c, d].all Char.isDigit
  | [a, b, c, d, '-', 'Q', n] => [a, b, c, d].all Char.isDigit && n.isDigit
  | [a, b, c, d, '-', 'M', e, f] => [a, b, c, d].all Char.isDigit && e.isDigit && f.isDigit
  | _ => false

/-! ## Completeness scorecard (src/core/ui.py, `render_completeness`) -/

/-- The four fixed dimensions with their keyword sets, in display order. -/
def dimensionKeywords : List (String × List String) :=
  [("Temporal", ["date", "year", "time", "timestamp"]),
   ("Geospatial", ["iso", "country", "lat", "lon", "source", "state", "county",
                   "fips", "name", "region"]),
   ("Quantitative", ["value", "price", "count", "gdp", "index", "obs_value",
                     "p1_001n", "estimate"]),
   ("Relational", ["source", "target", "partner"])]

/-- `render_completeness`: for each dimension, the head of the list of
columns whose lowercased name is in the keyword set (`found[0]`), or `none`
when no column matches. -/
def completenessReport (cols : List String) : List (String × Option String) :=
  dimensionKeywords.map (fun dk =>
    (dk.1, (cols.filter (fun c => dk.2.contains (lowerStr c))).head?))

/-! ## BLS adapter (src/sources/bls.py, `get_bls_data`) -/

/-- One element of `Results.series[0].data` in a BLS payload. -/
structure BLSEntry where
  year : String
  period : String
  value : String
  deriving DecidableEq

/-- One row of the table the BLS adapter returns (`[['date', 'value']]`).
The value is `Option ℚ` because `pd.to_numeric(·, errors='coerce')` leaves
NaN in place. -/
structure BLSRow where
  date : Date
  value : Option ℚ
  deriving DecidableEq

/-- Date ordering on BLS rows (`sort_values('date')`). -/
def blsLe (a b : BLSRow) : Prop := dateKey a.date ≤ dateKey b.date

instance : DecidableRel blsLe := fun a b => Nat.decLe (dateKey a.date) (dateKey b.date)

/-- The parsing pipeline of `get_bls_data` after a 200 response with
`status = REQUEST_SUCCEEDED` (src/sources/bls.py lines 26-31): keep entries
whose `period` contains `M`, build `year + "-" + period.replace("M","") +
"-01"` and parse it with `pd.to_datetime` (default `errors='raise'`: one bad
date makes the whole call return an error, modelled by `none`), coerce
`value` with `errors='coerce'` (NaN kept), sort by date and return the
`date`/`value` columns.  An empty `data` list also errors: `pd.DataFrame([])`
has no columns, so `df['period']` raises `KeyError`, which the
`(KeyError, IndexError)` handler turns into a "No data found." error. -/
def get_bls_rows (entries : List BLSEntry) : Option (List BLSRow) :=
  if entries.isEmpty then none
  else
    let monthly := entries.filter (fun e => e.period.toList.contains 'M')
    (monthly.mapM (fun e =>
      (parseDate (e.year ++ "-" ++ (strReplace e.period "M" "") ++ "-01")).map
        (fun d => BLSRow.mk d (toNumericStr e.value)))).map
      (fun rows => List.insertionSort blsLe rows)

/-! ## IMF adapter (src/sources/imf.py, `get_imf_data`) -/

/-- One SDMX-CompactData observation (`@TIME_PERIOD`, `@OBS_VALUE`); a field
is `none` when the key is absent from the JSON object. -/
structure ObsC where
  timePeriod : Option String
  obsValue : Option String
  deriving DecidableEq

/-- One SDMX-CompactData series: `@REF_AREA` (absent allowed, defaulted to
`"Unknown"`) and the observation list (a singleton JSON object is already
normalized to a one-element list by the source). -/
structure SeriesC where
  refArea : Option String
  obs : List ObsC
  deriving DecidableEq

/-- One row of the table the IMF extractors return. -/
structure IMFRow where
  source : String
  date : Date
  value : ℚ
  deriving DecidableEq

/-- Ordering by `(source, date)` ascending (`sort_values(['source','date'])`). -/
def imfLe (a b : IMFRow) : Prop :=
  a.source < b.source ∨ (a.source = b.source ∧ dateKey a.date ≤ dateKey b.date)

instance : DecidableRel imfLe := fun a b => by unfold imfLe; infer_instance

instance : IsTotal IMFRow imfLe :=
  ⟨fun a b => by
    rcases lt_trichotomy a.source b.source with h | h | h
    · exact Or.inl (Or.inl h)
    · rcases Nat.le_total (dateKey a.date) (dateKey b.date) with h2 | h2
      · exact Or.inl (Or.inr ⟨h, h2⟩)
      · exact Or.inr (Or.inr ⟨h.symm, h2⟩)
    · exact Or.inr (Or.inl h)⟩

instance : IsTrans IMFRow imfLe :=
  ⟨fun a b c hab hbc => by
    rcases hab with h1 | ⟨e1, k1⟩ <;> rcases hbc with h2 | ⟨e2, k2⟩
    · exact Or.inl (lt_trans h1 h2)
    · exact Or.inl (lt_of_lt_of_le h1 (le_of_eq e2))
    · exact Or.inl (lt_of_le_of_lt (le_of_eq e1) h2)
    · exact Or.inr ⟨e1.trans e2, le_trans k1 k2⟩⟩

/-- One iteration of the SDMX-CompactData observation loop: `float` on
`@OBS_VALUE` (missing key or unparseable string raises, modelled `none`;
`"nan"` gives NaN) and `pd.to_datetime` on `@TIME_PERIOD` (missing key gives
NaT, an unparseable string raises). -/
def obsRow (src : String) (o : ObsC) : Option (String × Option Date × Option ℚ) :=
  match o.obsValue with
  | none => none
  | some v =>
    match parseFloatPy v with
    | none => none
    | some vq =>
      match o.timePeriod with
      | none => some (src, none, vq)
      | some t =>
        match parseDate t with
        | none => none
        | some d => some (src, some d, vq)

/-- `dropna()` on one pre-drop row: kept only when both the date (no NaT)
and the value (no NaN) are present. -/
def keepRow (t : String × Option Date × Option ℚ) : Option IMFRow :=
  match t with
  | (src, some d, some v) => some (IMFRow.mk src d v)
  | _ => none

/-- SDMX-CompactData extraction (src/sources/imf.py lines 34-60): build one
row per (series, observation) in order; any exception aborts the whole
extraction (`none`); then `dropna()` removes rows with a NaN value or NaT
date, and the result is sorted by `(source, date)` ascending.  When no
observation row at all is produced (`data_list` empty: zero series, or every
series with an empty `Obs`), `pd.DataFrame([])` has no columns and
`sort_values(['source','date'])` raises `KeyError`, which the handler turns
into an SDMX-parsing error — also modelled by `none`. -/
def get_imf_compact (series : List SeriesC) : Option (List IMFRow) :=
  (series.mapM (fun (s : SeriesC) => s.obs.mapM (obsRow (s.refArea.getD "Unknown")))).bind
    (fun ls =>
      if ls.flatten.isEmpty then none
      else some (List.insertionSort imfLe (ls.flatten.filterMap keepRow)))

/-- Decidable success condition for one observation: `@TIME_PERIOD` present
and parseable, `@OBS_VALUE` present and parseable to a non-NaN float. -/
def obsOk (o : ObsC) : Bool :=
  (o.timePeriod.bind parseDate).isSome &&
  (match o.obsValue with
   | some v =>
     match parseFloatPy v with
     | some (some _) => true
     | _ => false
   | none => false)

/-- DataMapper extraction (src/sources/imf.py lines 63-84): the payload's
`values` mapping, as an association list indicator ↦ country ↦ year ↦ value.
The code takes the first indicator key only (`list(values.keys())[0]`; an
empty mapping raises, modelled `none`); inside the loop a row whose value or
`f"{year}-01-01"` date fails to parse is skipped (`except: continue`); then
`dropna()` and the `(source, date)` sort.  When no row at all survives the
loop (`data_list` empty), `pd.DataFrame([])` has no columns and
`sort_values(['source','date'])` raises `KeyError`, turned by the handler
into a DataMapper-parsing error — also modelled by `none`. -/
def get_imf_datamapper
    (values : List (String × List (String × List (String × String)))) :
    Option (List IMFRow) :=
  match values with
  | [] => none
  | (_, countryData) :: _ =>
    let pre := countryData.flatMap (fun cv =>
      cv.2.filterMap (fun yv =>
        match parseFloatPy yv.2, parseDate (yv.1 ++ "-01-01") with
        | some v, some d => some ((cv.1, d, v) : String × Date × Option ℚ)
        | _, _ => none))
    if pre.isEmpty then none
    else
      let kept := pre.filterMap (fun t => t.2.2.map (fun q => IMFRow.mk t.1 t.2.1 q))
      some (List.insertionSort imfLe kept)

/-! ## Concrete inputs used in the claim theorems -/

/-- A wide table whose four quarter columns use single-digit quarter tokens. -/
def dfQuarters : DF :=
  ⟨["id", "2020-Q1", "2020-Q2", "2020-Q3", "2020-Q4"],
   [[Cell.str "a", Cell.num 1, Cell.num 2, Cell.num 3, Cell.num 4]]⟩

/-- A wide table with an invalid month token (`2020-M00`) among four date
columns; all values numeric. -/
def dfBadMonth : DF :=
  ⟨["2021", "2022", "2023", "2020-M00"],
   [[Cell.num 2, Cell.num 3, Cell.num 4, Cell.num 1]]⟩

/-- A wide table with a pre-existing textual `value` column. -/
def dfCollision : DF :=
  ⟨["value", "2020", "2021", "2022", "2023"],
   [[Cell.str "GDP", Cell.num 1, Cell.num 2, Cell.num 3, Cell.num 4]]⟩

/-- An already-long table. -/
def dfLong : DF :=
  ⟨["date", "value"], [[Cell.str "2020-01-01", Cell.num 5]]⟩

/-- An already-long table whose date and value cells are unparseable strings. -/
def dfLongRaw : DF :=
  ⟨["date", "value"], [[Cell.str "not-a-date", Cell.str "not-a-number"]]⟩

/-- A wide table with four year columns, one value unparseable. -/
def dfWide : DF :=
  ⟨["country", "2020", "2021", "2022", "2023"],
   [[Cell.str "US", Cell.num 1, Cell.str "x", Cell.num 3, Cell.num 4]]⟩

/-- A second wide table (all values numeric). -/
def dfWide2 : DF :=
  ⟨["country", "2019", "2020", "2021", "2022"],
   [[Cell.str "FR", Cell.num 7, Cell.num 8, Cell.num 9, Cell.num 10]]⟩

/-- The BLS scenario payload from the specification: an `M01` monthly entry
and an `M13` annual-average entry. -/
def blsScenario : List BLSEntry :=
  [⟨"2023", "M01", "3.1"⟩, ⟨"2023", "M13", "3.5"⟩]

/-- A BLS payload whose single entry carries a non-numeric value. -/
def blsNullValue : List BLSEntry := [⟨"2023", "M01", "n/a"⟩]

/-- An SDMX payload: one series, two observations, the second with an
unparseable `@OBS_VALUE`. -/
def imfBadValue : List SeriesC :=
  [⟨some "US", [⟨some "2020", some "1.0"⟩, ⟨some "2021", some "abc"⟩]⟩]

/-- An SDMX payload: two series with two parseable observations each. -/
def imfGood : List SeriesC :=
  [⟨some "US", [⟨some "2021", some "2.5"⟩, ⟨some "2020", some "1.5"⟩]⟩,
   ⟨some "FR", [⟨some "2020", some "3.5"⟩, ⟨some "2021", some "4.5"⟩]⟩]

/-- A DataMapper payload carrying two indicators. -/
def dmMulti : List (String × List (String × List (String × String))) :=
  [("NGDP_RPCH", [("USA", [("2020", "1.0")])]),
   ("PCPIPCH", [("USA", [("2020", "2.0")])])]

/-- A third already-long table (three date-pattern columns only, which is
not above the melt threshold). -/
def dfLong2 : DF :=
  ⟨["id", "2020", "2021", "2022"],
   [[Cell.str "a", Cell.num 1, Cell.num 2, Cell.num 3]]⟩

end FCAT

namespace FCAT

/-! ## Helper lemmas -/

theorem head?_filter_eq_find? {α : Type} (p : α → Bool) :
    ∀ l : List α, (l.filter p).head? = l.find? p := by
  intro l
  induction l with
  | nil => rfl
  | cons a t ih =>
    by_cases h : p a
    · simp [List.filter_cons, List.find?_cons, h]
    · simp [List.filter_cons, List.find?_cons, h, ih]

theorem set_set_pair {α : Type} (ids : List α) (a b x y : α) :
    ((ids ++ [a, b]).set ids.length x).set (ids.length + 1) y = ids ++ [x, y] := by
  induction ids with
  | nil => rfl
  | cons c t ih => simp [ih]

theorem getD_pair_fst {α : Type} (ids : List α) (a b e : α) :
    (ids ++ [a, b]).getD ids.length e = a := by
  induction ids with
  | nil => rfl
  | cons c t ih => simpa using ih

theorem getD_pair_snd {α : Type} (ids : List α) (a b e : α) :
    (ids ++ [a, b]).getD (ids.length + 1) e = b := by
  induction ids with
  | nil => rfl
  | cons c t ih => simpa using ih

theorem length_meltIdCells (df : DF) (src : List Cell) :
    (meltIdCells df src).length = (idColsOf df).length := by
  simp [meltIdCells]

theorem procRow_buildRow (df : DF) (d : String) (src : List Cell) :
    procRow (idColsOf df).length (buildRow df d src)
      = meltIdCells df src ++
          [dateCellOf (cleanDate d), numCellOf (lookupCell df.cols src d)] := by
  unfold procRow buildRow
  rw [← length_meltIdCells df src, getD_pair_fst, getD_pair_snd, set_set_pair]
  rfl

theorem getD_snd_out (df : DF) (src : List Cell) (x y : Cell) :
    (meltIdCells df src ++ [x, y]).getD ((idColsOf df).length + 1) Cell.null = y := by
  rw [← length_meltIdCells df src, getD_pair_snd]

end FCAT

namespace FCAT

theorem filter_proc_map_eq (df : DF) (d : String) (rows : List (List Cell)) :
    ((rows.map (buildRow df d)).map (procRow (idColsOf df).length)).filter
        (fun r => r.getD ((idColsOf df).length + 1) Cell.null != Cell.null)
      = rows.filterMap (meltOutRow df d) := by
  induction rows with
  | nil => rfl
  | cons src rest ih =>
    simp only [List.map_cons, List.filterMap_cons, procRow_buildRow, List.filter_cons]
    cases hc : toNumeric (lookupCell df.cols src d) with
    | none =>
      have hnum : numCellOf (lookupCell df.cols src d) = Cell.null := by
        simp [numCellOf, hc]
      rw [hnum]
      simp only [getD_snd_out, meltOutRow, hc, ih]
      simp
    | some q =>
      have hnum : numCellOf (lookupCell df.cols src d) = Cell.num q := by
        simp [numCellOf, hc]
      rw [hnum]
      simp only [getD_snd_out, meltOutRow, hc, ih]
      simp

theorem normalize_rows_eq (df : DF) (h : 3 < (dateColsOf df).length) :
    (normalize_wide_data df).rows
      = (dateColsOf df).flatMap (fun d => df.rows.filterMap (meltOutRow df d)) := by
  unfold normalize_wide_data
  rw [if_pos h]
  show ((meltRows df).map _).filter _ = _
  unfold meltRows
  rw [List.map_flatMap, List.filter_flatMap]
  exact congrArg _ (funext fun d => filter_proc_map_eq df d df.rows)

theorem normalize_cols_eq (df : DF) (h : 3 < (dateColsOf df).length) :
    (normalize_wide_data df).cols = meltCols2 df := by
  unfold normalize_wide_data
  rw [if_pos h]

theorem normalize_no_trigger (df : DF) (h : (dateColsOf df).length ≤ 3) :
    normalize_wide_data df = df := by
  unfold normalize_wide_data
  rw [if_neg (by omega)]

end FCAT

namespace FCAT

theorem count_per_datecol (df : DF) (d : String) :
    (df.rows.filterMap (meltOutRow df d)).length
      + (df.rows.map (buildRow df d)).countP
          (fun r => (toNumeric (r.getD ((idColsOf df).length + 1) Cell.null)).isNone)
      = df.rows.length := by
  rw [List.length_filterMap_eq_countP, List.countP_map]
  have h1 : df.rows.countP (fun src => (meltOutRow df d src).isSome)
      = df.rows.countP (fun src => (toNumeric (lookupCell df.cols src d)).isSome) := by
    apply List.countP_congr
    intro src _
    unfold meltOutRow
    cases toNumeric (lookupCell df.cols src d) <;> simp
  have h2 : df.rows.countP
        ((fun r => (toNumeric (r.getD ((idColsOf df).length + 1) Cell.null)).isNone)
          ∘ buildRow df d)
      = df.rows.countP (fun src => (toNumeric (lookupCell df.cols src d)).isNone) := by
    apply List.countP_congr
    intro src _
    simp only [Function.comp_apply, buildRow, getD_snd_out]
  rw [h1, h2]
  have h3 := List.length_eq_countP_add_countP
    (p := fun src => (toNumeric (lookupCell df.cols src d)).isSome) df.rows
  have h4 : df.rows.countP (fun src => ¬ (toNumeric (lookupCell df.cols src d)).isSome)
      = df.rows.countP (fun src => (toNumeric (lookupCell df.cols src d)).isNone) := by
    apply List.countP_congr
    intro src _
    cases toNumeric (lookupCell df.cols src d) <;> simp
  omega

theorem count_all_datecols (df : DF) : ∀ ds : List String,
    (ds.flatMap (fun d => df.rows.filterMap (meltOutRow df d))).length
      + (ds.flatMap (fun d => df.rows.map (buildRow df d))).countP
          (fun r => (toNumeric (r.getD ((idColsOf df).length + 1) Cell.null)).isNone)
      = ds.length * df.rows.length := by
  intro ds
  induction ds with
  | nil => simp
  | cons d ds ih =>
    simp only [List.flatMap_cons, List.length_append, List.countP_append, List.length_cons]
    have hd := count_per_datecol df d
    have : (ds.length + 1) * df.rows.length = ds.length * df.rows.length + df.rows.length := by
      ring
    omega

end FCAT

namespace FCAT

theorem melt_row_src (df : DF) (h : 3 < (dateColsOf df).length) :
    ∀ r ∈ (normalize_wide_data df).rows,
      ∃ d, d ∈ dateColsOf df ∧ ∃ src, src ∈ df.rows ∧ ∃ q : ℚ,
        toNumeric (lookupCell df.cols src d) = some q ∧
        r = meltIdCells df src ++ [dateCellOf (cleanDate d), Cell.num q] := by
  rw [normalize_rows_eq df h]
  intro r hr
  rw [List.mem_flatMap] at hr
  obtain ⟨d, hd, hr⟩ := hr
  rw [List.mem_filterMap] at hr
  obtain ⟨src, hsrc, hout⟩ := hr
  refine ⟨d, hd, src, hsrc, ?_⟩
  cases hc : toNumeric (lookupCell df.cols src d) with
  | none =>
    rw [meltOutRow, hc] at hout
    simp at hout
  | some q =>
    rw [meltOutRow, hc] at hout
    simp only [Option.some.injEq] at hout
    exact ⟨q, rfl, hout.symm⟩

theorem meltCols2_swap (df : DF) (hv : "value" ∈ idColsOf df)
    (hm : "melted_numeric_value" ∉ idColsOf df) :
    meltCols2 df
      = ((idColsOf df).map (fun c => if c = "value" then "value_desc" else c))
          ++ ["date", "value"] := by
  have hb : (idColsOf df).contains "value" = true := by
    simpa using hv
  unfold meltCols2 meltCols1 meltTarget
  rw [hb]
  simp only [if_true]
  have hmap : ∀ c ∈ idColsOf df,
      (if c == "value" then "value_desc"
        else if c == "melted_numeric_value" then "value" else c)
        = (if c = "value" then "value_desc" else c) := by
    intro c hc
    by_cases h1 : c = "value"
    · simp [h1]
    · have h2 : c ≠ "melted_numeric_value" := fun e => hm (e ▸ hc)
      simp [h1, h2]
  rw [List.map_append, List.map_congr_left hmap]
  simp

end FCAT

namespace FCAT

theorem obsRow_ok (src : String) (o : ObsC) (h : obsOk o = true) :
    ∃ d q, obsRow src o = some (src, some d, some q) := by
  unfold obsOk at h
  rw [Bool.and_eq_true] at h
  obtain ⟨h1, h2⟩ := h
  cases ht : o.timePeriod with
  | none => rw [ht] at h1; simp at h1
  | some t =>
    rw [ht] at h1
    simp only [Option.some_bind] at h1
    cases hd : parseDate t with
    | none => rw [hd] at h1; simp at h1
    | some d0 =>
      cases hv : o.obsValue with
      | none => rw [hv] at h2; simp at h2
      | some v =>
        simp only [hv] at h2
        cases hpf : parseFloatPy v with
        | none => simp only [hpf] at h2; simp at h2
        | some vq =>
          cases vq with
          | none => simp only [hpf] at h2; simp at h2
          | some q =>
            refine ⟨d0, q, ?_⟩
            simp [obsRow, hv, hpf, ht, hd]

theorem mapM_obs_ok (src : String) : ∀ l : List ObsC, l.all obsOk = true →
    ∃ out : List (String × Option Date × Option ℚ),
      l.mapM (obsRow src) = some out ∧ out.length = l.length ∧
      ∀ x ∈ out, ∃ d q, x = (src, some d, some q) := by
  intro l
  induction l with
  | nil => intro _; exact ⟨[], rfl, rfl, by simp⟩
  | cons o t ih =>
    intro h
    rw [List.all_cons, Bool.and_eq_true] at h
    obtain ⟨d, q, ho⟩ := obsRow_ok src o h.1
    obtain ⟨out, hmap, hlen, hall⟩ := ih h.2
    refine ⟨(src, some d, some q) :: out, ?_, by simp [hlen], ?_⟩
    · rw [List.mapM_cons, ho, hmap]; rfl
    · intro x hx
      rcases List.mem_cons.mp hx with hx | hx
      · exact ⟨d, q, hx⟩
      · exact hall x hx

theorem mapM_series_ok : ∀ series : List SeriesC,
    (∀ s ∈ series, s.obs.all obsOk = true) →
    ∃ ls : List (List (String × Option Date × Option ℚ)),
      (series.mapM (fun (s : SeriesC) =>
        s.obs.mapM (obsRow (s.refArea.getD "Unknown")))) = some ls ∧
      ls.map List.length = series.map (fun s => s.obs.length) ∧
      ∀ l ∈ ls, ∀ x ∈ l, ∃ src d q, x = (src, some d, some q) := by
  intro series
  induction series with
  | nil => intro _; exact ⟨[], rfl, rfl, by simp⟩
  | cons s t ih =>
    intro h
    obtain ⟨out, hmap, hlen, hall⟩ :=
      mapM_obs_ok (s.refArea.getD "Unknown") s.obs (h s (by simp))
    obtain ⟨ls, hmaps, hlens, halls⟩ := ih (fun s' hs' => h s' (by simp [hs']))
    refine ⟨out :: ls, ?_, by simp [hlen, hlens], ?_⟩
    · rw [List.mapM_cons, hmap, hmaps]; rfl
    · intro l hl x hx
      rcases List.mem_cons.mp hl with rfl | hl
      · obtain ⟨d, q, he⟩ := hall x hx
        exact ⟨s.refArea.getD "Unknown", d, q, he⟩
      · exact halls l hl x hx

theorem filterMap_keepRow_length : ∀ l : List (String × Option Date × Option ℚ),
    (∀ x ∈ l, ∃ src d q, x = (src, some d, some q)) →
    (l.filterMap keepRow).length = l.length := by
  intro l
  induction l with
  | nil => intro _; rfl
  | cons x t ih =>
    intro h
    obtain ⟨src, d, q, rfl⟩ := h x (by simp)
    rw [List.filterMap_cons]
    simp only [keepRow]
    rw [List.length_cons, List.length_cons, ih (fun y hy => h y (by simp [hy]))]

end FCAT

namespace FCAT

theorem sum_obs_lengths : ∀ (series : List SeriesC) (M : Nat),
    (∀ s ∈ series, s.obs.length = M) →
    (series.map (fun s => s.obs.length)).sum = series.length * M := by
  intro series M
  induction series with
  | nil => intro _; simp
  | cons s t ih =>
    intro h
    simp only [List.map_cons, List.sum_cons, List.length_cons]
    rw [h s (by simp), ih (fun s' hs' => h s' (by simp [hs']))]
    ring

/-! ## Claim theorems -/

/-- **C1** (counterexample): the claim says that for every adapter every row
of the final returned table has a non-null `value` (nulls dropped after
coercion).  The BLS adapter (src/sources/bls.py) coerces `value` with
`errors='coerce'` but never drops the resulting null rows: on the payload
with the single data entry `{year: "2023", period: "M01", value: "n/a"}` it
returns, without error, a one-row table whose `value` is null. -/
theorem c1_counterexample :
    get_bls_rows blsNullValue = some [⟨⟨2023, 1, 1⟩, none⟩] := by decide

/-- **C1** (amended): the null-value drop invariant holds for the
normalizer's melt output: every row of the melt output carries a numeric
cell in the `value` column (position `(idColsOf df).length + 1`).  It does
not hold for the BLS adapter (see the counterexample). -/
theorem c1_amended (df : DF) (h : 3 < (dateColsOf df).length) :
    ∀ r ∈ (normalize_wide_data df).rows,
      ∃ q : ℚ, r.getD ((idColsOf df).length + 1) Cell.null = Cell.num q := by
  intro r hr
  obtain ⟨d, _, src, _, q, _, rfl⟩ := melt_row_src df h r hr
  exact ⟨q, getD_snd_out df src _ _⟩

/-- Witness for `c1_amended` at the concrete wide table `dfWide2`. -/
theorem c1_amended_witness :
    ∃ q : ℚ, ([Cell.str "FR", Cell.date ⟨2019, 1, 1⟩, Cell.num 7] : List Cell).getD
        ((idColsOf dfWide2).length + 1) Cell.null = Cell.num q :=
  c1_amended dfWide2 (by decide)
    [Cell.str "FR", Cell.date ⟨2019, 1, 1⟩, Cell.num 7] (by decide)

/-- **C2** (counterexample): the claim's trigger pattern reads `YYYY-Qn`
(single-digit quarter).  `dfQuarters` has four columns matching that
pattern, yet the code's regex `^\d{4}(?:-[QM]\d{2})?$` requires two digits
after `Q`, so the table is not melted: `normalize_wide_data` returns it
unchanged (one row, original columns) instead of a melt with
`1 × 4 = 4` rows. -/
theorem c2_counterexample :
    3 < (dfQuarters.cols.filter specDateToken).length ∧
    normalize_wide_data dfQuarters = dfQuarters ∧
    (normalize_wide_data dfQuarters).rows.length = 1 := by
  exact ⟨by decide, by decide, by decide⟩

/-- **C2** (amended): with the code's date-token pattern (`YYYY`,
`YYYY-Qnn`, `YYYY-Mnn` — exactly two digits after `Q`/`M`), a table with
more than 3 matching columns is melted and the output row count is (input
row count) × (date-column count) minus the rows dropped for a null coerced
value; a table with 3 or fewer matching columns is returned unchanged. -/
theorem c2_amended (df : DF) :
    (3 < (dateColsOf df).length →
      (normalize_wide_data df).rows.length + droppedNullValueCount df
        = (dateColsOf df).length * df.rows.length)
    ∧ ((dateColsOf df).length ≤ 3 → normalize_wide_data df = df) := by
  constructor
  · intro h
    rw [normalize_rows_eq df h]
    unfold droppedNullValueCount meltRows
    exact count_all_datecols df (dateColsOf df)
  · exact normalize_no_trigger df

/-- Witness for `c2_amended`: the melt branch at `dfWide` (four year
columns, one null value) and the pass-through branch at `dfLong2`. -/
theorem c2_witness :
    ((normalize_wide_data dfWide).rows.length + droppedNullValueCount dfWide
      = (dateColsOf dfWide).length * dfWide.rows.length)
    ∧ normalize_wide_data dfLong2 = dfLong2 :=
  ⟨(c2_amended dfWide).1 (by decide), (c2_amended dfLong2).2 (by decide)⟩

end FCAT

namespace FCAT

/-- **C3** (counterexample): the claim says a melted row whose date fails to
parse is dropped.  In `dfBadMonth` the column `2020-M00` canonicalizes to
`2020-00`, which fails date parsing (month 0), yet its row — whose value is
the numeric `1` — is kept in the output with a null date:
`dropna(subset=['value'])` only drops null values, never null dates. -/
theorem c3_counterexample :
    [Cell.null, Cell.num 1] ∈ (normalize_wide_data dfBadMonth).rows := by decide

/-- **C3** (amended): in the melt branch each date token is canonicalized by
the fixed substring replacements (`-Q1..-Q4` to the month starts
`-01-01`, `-04-01`, `-07-01`, `-10-01`; `-M` to `-`; bare four-digit years to
`YYYY-01-01`) and then parsed (null on failure); a (date-column, row) pair
survives to the output exactly when its value coerces to a number — a null
date is retained, only null-value rows are dropped. -/
theorem c3_amended (df : DF) (h : 3 < (dateColsOf df).length) :
    ((normalize_wide_data df).rows
        = (dateColsOf df).flatMap (fun d => df.rows.filterMap (meltOutRow df d)))
    ∧ cleanDate "2020-Q1" = "2020-01-01" ∧ cleanDate "2020-Q2" = "2020-04-01"
    ∧ cleanDate "2020-Q3" = "2020-07-01" ∧ cleanDate "2020-Q4" = "2020-10-01"
    ∧ cleanDate "2020-M07" = "2020-07" ∧ cleanDate "2021" = "2021-01-01"
    ∧ dateCellOf "2020-00" = Cell.null :=
  ⟨normalize_rows_eq df h, by decide, by decide, by decide, by decide,
   by decide, by decide, by decide⟩

/-- Witness for `c3_amended` at the concrete table `dfBadMonth`. -/
theorem c3_witness :
    (normalize_wide_data dfBadMonth).rows
      = (dateColsOf dfBadMonth).flatMap
          (fun d => dfBadMonth.rows.filterMap (meltOutRow dfBadMonth d)) :=
  (c3_amended dfBadMonth (by decide)).1

/-- **C6**: when the input has a (non-date) column literally named `value`
and more than 3 date-pattern columns, after the melt the last column is
named `value` and holds only numeric cells, while the pre-existing column is
renamed `value_desc` in place (same position `i`), its cells carried over
from the source rows — renamed, not dropped, not overwritten.  (The
hypothesis on `melted_numeric_value` excludes the reserved internal
temporary name.) -/
theorem c6_collision (df : DF) (h : 3 < (dateColsOf df).length)
    (hv : "value" ∈ df.cols) (hm : "melted_numeric_value" ∉ df.cols) :
    ((normalize_wide_data df).cols
        = ((idColsOf df).map (fun c => if c = "value" then "value_desc" else c))
            ++ ["date", "value"])
    ∧ (∀ r ∈ (normalize_wide_data df).rows,
        ∃ q : ℚ, r.getD ((idColsOf df).length + 1) Cell.null = Cell.num q)
    ∧ (∀ r ∈ (normalize_wide_data df).rows, ∃ src ∈ df.rows,
        r.take (idColsOf df).length = meltIdCells df src)
    ∧ (∀ i, i < (idColsOf df).length → (idColsOf df).getD i "" = "value" →
        ((((idColsOf df).map (fun c => if c = "value" then "value_desc" else c)).getD i ""
            = "value_desc")
          ∧ ∀ r ∈ (normalize_wide_data df).rows, ∃ src ∈ df.rows,
              r.getD i Cell.null = lookupCell df.cols src "value")) := by
  have hv' : "value" ∈ idColsOf df := by
    unfold idColsOf
    rw [List.mem_filter]
    exact ⟨hv, by decide⟩
  have hm' : "melted_numeric_value" ∉ idColsOf df :=
    fun hx => hm (List.mem_filter.mp hx).1
  refine ⟨?_, ?_, ?_, ?_⟩
  · rw [normalize_cols_eq df h, meltCols2_swap df hv' hm']
  · intro r hr
    obtain ⟨d, _, src, _, q, _, rfl⟩ := melt_row_src df h r hr
    exact ⟨q, getD_snd_out df src _ _⟩
  · intro r hr
    obtain ⟨d, _, src, hsrc, q, _, rfl⟩ := melt_row_src df h r hr
    refine ⟨src, hsrc, ?_⟩
    rw [← length_meltIdCells df src, List.take_left]
  · intro i hlt hval
    have hsome : (idColsOf df)[i]? = some "value" := by
      rw [List.getElem?_eq_getElem hlt]
      rw [List.getD_eq_getElem?_getD, List.getElem?_eq_getElem hlt] at hval
      simpa using hval
    constructor
    · rw [List.getD_eq_getElem?_getD, List.getElem?_map, hsome]
      simp
    · intro r hr
      obtain ⟨d, _, src, hsrc, q, _, rfl⟩ := melt_row_src df h r hr
      refine ⟨src, hsrc, ?_⟩
      have hlt2 : i < (meltIdCells df src).length := by
        rw [length_meltIdCells]; exact hlt
      rw [List.getD_eq_getElem?_getD, List.getElem?_append_left hlt2]
      unfold meltIdCells
      rw [List.getElem?_map, hsome]
      simp

/-- Witness for `c6_collision` at the concrete table `dfCollision`. -/
theorem c6_witness :
    (normalize_wide_data dfCollision).cols = ["value_desc", "date", "value"] :=
  ((c6_collision dfCollision (by decide) (by decide) (by decide)).1).trans (by decide)

/-- **C8**: on an already-long table (at most 3 date-pattern columns, so no
melt) `normalize_wide_data` returns the input itself, hence applying it
twice equals applying it once. -/
theorem c8_idempotent (df : DF) (h : (dateColsOf df).length ≤ 3) :
    normalize_wide_data df = df
      ∧ normalize_wide_data (normalize_wide_data df) = normalize_wide_data df := by
  have h1 := normalize_no_trigger df h
  refine ⟨h1, ?_⟩
  rw [h1, h1]

/-- Witness for `c8_idempotent` at the concrete long table `dfLong`. -/
theorem c8_witness :
    normalize_wide_data dfLong = dfLong
      ∧ normalize_wide_data (normalize_wide_data dfLong) = normalize_wide_data dfLong :=
  c8_idempotent dfLong (by decide)

/-- **C9**: the completeness scorecard reports, per dimension, the first
column (in table column order) whose lowercased name is in the dimension's
keyword set — `found[0]` equals `find?` — and one column may satisfy several
dimensions: on `[source, target, date, value]` the report is Temporal/date,
Geospatial/source, Quantitative/value, Relational/source. -/
theorem c9_completeness :
    (∀ cols : List String,
      completenessReport cols
        = dimensionKeywords.map (fun dk =>
            (dk.1, cols.find? (fun c => dk.2.contains (lowerStr c)))))
    ∧ completenessReport ["source", "target", "date", "value"]
        = [("Temporal", some "date"), ("Geospatial", some "source"),
           ("Quantitative", some "value"), ("Relational", some "source")] := by
  constructor
  · intro cols
    unfold completenessReport
    apply List.map_congr_left
    intro dk _
    rw [head?_filter_eq_find?]
  · decide

/-- **C10**: a table with at most 3 date-pattern columns passes through
`normalize_wide_data` unchanged — no renaming, coercion or row dropping
happens outside the melt branch. -/
theorem c10_passthrough (df : DF) (h : (dateColsOf df).length ≤ 3) :
    normalize_wide_data df = df :=
  normalize_no_trigger df h

/-- Witness for `c10_passthrough` at `dfLongRaw`, whose date and value cells
are unparseable strings and survive untouched. -/
theorem c10_witness : normalize_wide_data dfLongRaw = dfLongRaw :=
  c10_passthrough dfLongRaw (by decide)

end FCAT

namespace FCAT

/-- **C4** (counterexample): the claim says rows with an unparseable
`@OBS_VALUE` are dropped while the others are preserved.  In `imfBadValue`
(one series, two observations, second `@OBS_VALUE` = `"abc"`) the call to
`float` raises, the exception reaches the surrounding handler, and the whole
extraction returns an error instead of the claimed one-row table. -/
theorem c4_counterexample : get_imf_compact imfBadValue = none := by decide

/-- **C4** (amended): for a payload of N ≥ 1 series with M ≥ 1 observations
each, in which every observation has a parseable `@TIME_PERIOD` and a
`@OBS_VALUE` parsing to a non-NaN float, the extraction succeeds with
exactly N×M rows sorted ascending by `(source, date)`.  A single
unparseable `@OBS_VALUE` instead aborts the whole extraction with an error
(see the counterexample), and a payload producing no observation row at all
also errors (`sort_values` raises `KeyError` on the column-less empty
frame), hence the N ≥ 1 and M ≥ 1 hypotheses. -/
theorem c4_amended (series : List SeriesC) (M : Nat)
    (hN : 0 < series.length) (hM : 0 < M)
    (hlen : ∀ s ∈ series, s.obs.length = M)
    (hok : ∀ s ∈ series, s.obs.all obsOk = true) :
    ∃ rows, get_imf_compact series = some rows
      ∧ rows.length = series.length * M
      ∧ rows.Pairwise imfLe := by
  obtain ⟨ls, hmap, hlens, hall⟩ := mapM_series_ok series hok
  have hflat : ls.flatten.length = series.length * M := by
    rw [List.length_flatten, hlens]
    exact sum_obs_lengths series M hlen
  have hpos : 0 < ls.flatten.length := hflat ▸ Nat.mul_pos hN hM
  have hne : ls.flatten.isEmpty = false := by
    cases hfl : ls.flatten with
    | nil => rw [hfl] at hpos; simp at hpos
    | cons a t => rfl
  refine ⟨List.insertionSort imfLe (ls.flatten.filterMap keepRow), ?_, ?_, ?_⟩
  · unfold get_imf_compact
    rw [hmap, Option.some_bind, if_neg (by simp [hne])]
  · rw [List.length_insertionSort, filterMap_keepRow_length]
    · exact hflat
    · intro x hx
      rw [List.mem_flatten] at hx
      obtain ⟨l, hl, hx⟩ := hx
      exact hall l hl x hx
  · exact List.sorted_insertionSort imfLe _

/-- Witness for `c4_amended` at the concrete payload `imfGood`
(2 series × 2 observations). -/
theorem c4_witness :
    ∃ rows, get_imf_compact imfGood = some rows
      ∧ rows.length = imfGood.length * 2 ∧ rows.Pairwise imfLe :=
  c4_amended imfGood 2 (by decide) (by decide) (by decide) (by decide)

/-- **C5**: on the scenario payload (`M01` value 3.1 and `M13` value 3.5,
status REQUEST_SUCCEEDED) the claim expects a one-row table
`{date: 2023-01-01, value: 3.1}`.  The code's filter `period contains "M"`
keeps `M13`, the constructed date string `2023-13-01` fails to parse, and
the `ValueError` escapes the `(KeyError, IndexError)` handler, so the fetch
returns an error and no table at all — contradicting the code's own comment
"Filter out non-monthly periods like M13". -/
theorem c5_bls_error : get_bls_rows blsScenario = none := by decide

/-- **C7**: on a DataMapper payload whose `values` mapping carries two
indicators, the claim (and the spec) require `ExtractionError("multiple
indicators")`; the code instead silently takes the first indicator key and
returns a table built from it alone. -/
theorem c7_first_indicator :
    ∃ q : ℚ, get_imf_datamapper dmMulti = some [⟨"USA", ⟨2020, 1, 1⟩, q⟩] ∧ q = 1 := by
  refine ⟨_, rfl, ?_⟩
  norm_num [show ('1'.toNat - 48) = 1 from rfl, show ('0'.toNat - 48) = 0 from rfl]
  rfl

end FCAT
